import Mathlib

/-!
Shallow embedding of the Game Boy CPU emulator core (src/cpu.rs, src/memory.rs).

Machine integers are modelled as `Nat`.  Where the Rust code performs a
wrapping operation (`wrapping_add`, `wrapping_sub`, `as u8`/`as u16` casts,
`+=` in a release build) the embedding reduces modulo `2^8` or `2^16`
explicitly.  A Rust `panic!`/`unwrap` failure is modelled as `Option.none`
for the memory primitives and as `StepResult.panicked` for the CPU step.
-/

namespace Gb

/-- Embedding of the `CpuFlags` bitflags struct of src/cpu.rs: the four
condition bits ZERO, SUBTRACTION, HALF_CARRY, CARRY of the F register,
each modelled as one `Bool` field. -/
structure CpuFlags where
  zero : Bool
  subtraction : Bool
  half_carry : Bool
  carry : Bool
deriving DecidableEq

/-- Embedding of `CpuFlags::empty()`: all four flag bits clear. -/
def CpuFlags.empty : CpuFlags :=
  { zero := false, subtraction := false, half_carry := false, carry := false }

/-- Embedding of the `EightBitRegister` enum of src/cpu.rs. -/
inductive EightBitRegister
  | A | B | D | H | F | C | E | L | S | P
deriving DecidableEq

/-- Embedding of the `SixteenBitRegister` enum of src/cpu.rs. -/
inductive SixteenBitRegister
  | Bc | De | Hl | Sp
deriving DecidableEq

/-- Embedding of the `MicroOp` enum of src/cpu.rs. -/
inductive MicroOp
  | LoadImmediate (destination : EightBitRegister)
  | StoreToMemory (value : Nat) (address : Nat)
  | StoreToSixteenBitRegister (register : SixteenBitRegister) (value : Nat)
deriving DecidableEq

/-- Embedding of the `Memory` struct of src/memory.rs.  Its `get_data` and
`set_byte` operations only ever touch the `rom_bank_0` array (addresses
`0x0000..0x4000`) and panic for every other address, so only that bank is
carried here; the remaining banks are dead state for those operations. -/
structure Memory where
  rom_bank_0 : Nat → Nat

/-- Embedding of `Memory::new()`: all bytes zeroed. -/
def Memory.new : Memory := { rom_bank_0 := fun _ => 0 }

/-- Embedding of `Memory::get_data`.  The Rust `match` covers only the range
`ROM_BANK_0_START..ROM_BANK_N_START` (`0x0000..0x4000`, offset 0) and panics
(`none`) on every other address. -/
def Memory.get_data (m : Memory) (address : Nat) : Option Nat :=
  if address < 0x4000 then some (m.rom_bank_0 (address - 0)) else none

/-- Embedding of `Memory::set_byte`.  As for `get_data`, only addresses in
`0x0000..0x4000` are accepted; every other address panics (`none`). -/
def Memory.set_byte (m : Memory) (address data : Nat) : Option Memory :=
  if address < 0x4000 then
    some { rom_bank_0 := fun i => if i = address - 0 then data else m.rom_bank_0 i }
  else none

/-- Embedding of the `Cpu` struct of src/cpu.rs (the borrowed `&mut Memory`
is carried inside the state; the micro-op `VecDeque` is a list consumed at
the front and extended at the back). -/
structure Cpu where
  a : Nat
  b : Nat
  d : Nat
  h : Nat
  f : Nat
  c : Nat
  e : Nat
  l : Nat
  sp : Nat
  flags : CpuFlags
  pc : Nat
  micro_op_queue : List MicroOp
  memory : Memory

/-- Embedding of `Cpu::new` (INITIAL_PC = 0x100, INITIAL_SP = 0xFFFE). -/
def Cpu.new (memory : Memory) : Cpu :=
  { a := 0, b := 0, d := 0, h := 0, f := 0, c := 0, e := 0, l := 0
    micro_op_queue := []
    flags := CpuFlags.empty
    sp := 0xFFFE
    pc := 0x100
    memory := memory }

/-- Embedding of `Cpu::get_bc`: `((b as u16) << 8) + (c as u16)`. -/
def Cpu.get_bc (cpu : Cpu) : Nat := (cpu.b <<< 8) + cpu.c

/-- Embedding of `Cpu::get_de`. -/
def Cpu.get_de (cpu : Cpu) : Nat := (cpu.d <<< 8) + cpu.e

/-- Embedding of `Cpu::get_hl`. -/
def Cpu.get_hl (cpu : Cpu) : Nat := (cpu.h <<< 8) + cpu.l

/-- Embedding of `Cpu::get_sp`. -/
def Cpu.get_sp (cpu : Cpu) : Nat := cpu.sp

/-- Embedding of `Cpu::set_bc`: `b = (value >> 8) as u8; c = value & 0xFF`. -/
def Cpu.set_bc (cpu : Cpu) (value : Nat) : Cpu :=
  { cpu with b := (value >>> 8) % 256, c := value &&& 0xFF }

/-- Embedding of `Cpu::set_de`. -/
def Cpu.set_de (cpu : Cpu) (value : Nat) : Cpu :=
  { cpu with d := (value >>> 8) % 256, e := value &&& 0xFF }

/-- Embedding of `Cpu::set_hl`. -/
def Cpu.set_hl (cpu : Cpu) (value : Nat) : Cpu :=
  { cpu with h := (value >>> 8) % 256, l := value &&& 0xFF }

/-- Embedding of `Cpu::set_sp`. -/
def Cpu.set_sp (cpu : Cpu) (value : Nat) : Cpu :=
  { cpu with sp := value }

/-- Embedding of `Cpu::add` (flag side effect returned next to the result).
`output` is the `u16` sum; the returned byte is `output as u8`. -/
def add (value_one value_two : Nat) : Nat × CpuFlags :=
  let half_carry : Bool := decide ((((value_one &&& 0xF) + (value_two &&& 0xF)) &&& 0x10) = 0x10)
  let output : Nat := value_one + value_two
  let flags := CpuFlags.empty
  let flags := if output % 256 = 0 then { flags with zero := true } else flags
  let flags := if half_carry then { flags with half_carry := true } else flags
  let flags := if output > 255 then { flags with carry := true } else flags
  (output % 256, flags)

/-- Embedding of `Cpu::adc`; `carry_flag` is the incoming CARRY bit read from
`self.flags` before the flags are cleared. -/
def adc (carry_flag : Bool) (value_one value_two : Nat) : Nat × CpuFlags :=
  let carry : Nat := if carry_flag then 1 else 0
  let half_carry : Bool := decide ((value_one &&& 0xF) + (value_two &&& 0xF) + carry > 0xF)
  let output : Nat := value_one + value_two + carry
  let flags := CpuFlags.empty
  let flags := if output % 256 = 0 then { flags with zero := true } else flags
  let flags := { flags with subtraction := false }
  let flags := if half_carry then { flags with half_carry := true } else flags
  let flags := if output > 255 then { flags with carry := true } else flags
  (output % 256, flags)

/-- Embedding of `Cpu::sub`.  The half-carry line of the source is
`(((value_one & 0xF) - (value_two & 0xF)) & 0x10) == 0x10` on `u8`; in a
release build the subtraction wraps modulo 256, which is what is written
here (the overflow-checked behaviour of that same subexpression is modelled
separately by `sub_half_carry_checked`).  `output` is
`value_one.wrapping_sub(value_two)`. -/
def sub (value_one value_two : Nat) : Nat × CpuFlags :=
  let half_carry : Bool :=
    decide (((((value_one &&& 0xF) + 256 - (value_two &&& 0xF)) % 256) &&& 0x10) = 0x10)
  let output : Nat := (value_one + 256 - value_two) % 256
  let flags := CpuFlags.empty
  let flags := if output = 0 then { flags with zero := true } else flags
  let flags := { flags with subtraction := true }
  let flags := if half_carry then { flags with half_carry := true } else flags
  let flags := if value_one < value_two then { flags with carry := true } else flags
  (output, flags)

/-- Embedding of the half-carry subexpression of `Cpu::sub`,
`(value_one & 0xF) - (value_two & 0xF)` on `u8`, under Rust's
overflow-checked (debug-profile) semantics: the subtraction panics —
modelled as `none` — whenever the low nibble of the first operand is
smaller than the low nibble of the second. -/
def sub_half_carry_checked (value_one value_two : Nat) : Option Nat :=
  if (value_one &&& 0xF) < (value_two &&& 0xF) then none
  else some ((value_one &&& 0xF) - (value_two &&& 0xF))

/-- Embedding of `Cpu::sbc`; `carry_flag` is the incoming CARRY bit.
`output` is `value_one.wrapping_sub(value_two).wrapping_sub(carry)`; the
half-carry test is `value_one & 0x0F < (value_two.wrapping_sub(carry) & 0x0F)`
and the carry test is `output >= value_one`. -/
def sbc (carry_flag : Bool) (value_one value_two : Nat) : Nat × CpuFlags :=
  let carry : Nat := if carry_flag then 1 else 0
  let output : Nat := ((value_one + 256 - value_two) % 256 + 256 - carry) % 256
  let flags := CpuFlags.empty
  let flags := if output = 0 then { flags with zero := true } else flags
  let flags := { flags with subtraction := true }
  let flags :=
    if (value_one &&& 0x0F) < (((value_two + 256 - carry) % 256) &&& 0x0F) then
      { flags with half_carry := true }
    else flags
  let flags := if output ≥ value_one then { flags with carry := true } else flags
  (output, flags)

/-- Embedding of `Cpu::and`. -/
def and (value_one value_two : Nat) : Nat × CpuFlags :=
  let output : Nat := value_one &&& value_two
  let flags := CpuFlags.empty
  let flags := if output = 0 then { flags with zero := true } else flags
  let flags := { flags with half_carry := true }
  (output, flags)

/-- Embedding of `Cpu::or`. -/
def or (value_one value_two : Nat) : Nat × CpuFlags :=
  let output : Nat := value_one ||| value_two
  let flags := CpuFlags.empty
  let flags := if output = 0 then { flags with zero := true } else flags
  (output, flags)

/-- Embedding of `Cpu::xor` (the three trailing `remove` calls are kept as
explicit clears). -/
def xor (value_one value_two : Nat) : Nat × CpuFlags :=
  let output : Nat := value_one ^^^ value_two
  let flags := CpuFlags.empty
  let flags := if output = 0 then { flags with zero := true } else flags
  let flags := { flags with subtraction := false, half_carry := false, carry := false }
  (output, flags)

/-- Embedding of `Cpu::cp`: subtraction whose numeric result is discarded,
leaving only `sub`'s flag state. -/
def cp (value_one value_two : Nat) : CpuFlags :=
  (sub value_one value_two).2

/-- Embedding of the `Instruction` enum of src/cpu.rs (every declared
opcode; the discriminant values live in `from_u8`). -/
inductive Instruction
  | NOP
  | LoadBcTwoByteImmediate | LoadDeTwoByteImmediate
  | LoadHlTwoByteImmediate | LoadSpTwoByteImmediate
  | StoreBcA | StoreDeA | StoreHlPlusA | StoreHlMinusA
  | IncBc | IncDe | IncHl | IncSp
  | IncA | IncB | IncC | IncD | IncE | IncH | IncL
  | LoadBB | LoadBC | LoadBD | LoadBE | LoadBH | LoadBL | LoadBA
  | LoadCB | LoadCC | LoadCD | LoadCE | LoadCH | LoadCL | LoadCA
  | LoadDB | LoadDC | LoadDD | LoadDE | LoadDH | LoadDL | LoadDA
  | LoadEB | LoadEC | LoadED | LoadEE | LoadEH | LoadEL | LoadEA
  | LoadHB | LoadHC | LoadHD | LoadHE | LoadHH | LoadHL | LoadHA
  | LoadLB | LoadLC | LoadLD | LoadLE | LoadLH | LoadLL | LoadLA
  | AddAB | AddAC | AddAD | AddAE | AddAH | AddAL | AddAA
  | AdcAB | AdcAC | AdcAD | AdcAE | AdcAH | AdcAL | AdcAA
  | SubAB | SubAC | SubAD | SubAE | SubAH | SubAL | SubAA
  | SbcAB | SbcAC | SbcAD | SbcAE | SbcAH | SbcAL | SbcAA
  | AndAB | AndAC | AndAD | AndAE | AndAH | AndAL | AndAA
  | XorAB | XorAC | XorAD | XorAE | XorAH | XorAL | XorAA
  | OrAB | OrAC | OrAD | OrAE | OrAH | OrAL | OrAA
  | CpAB | CpAC | CpAD | CpAE | CpAH | CpAL | CpAA
deriving DecidableEq

/-- Embedding of the derived `FromPrimitive::from_u8` conversion for
`Instruction`: maps an opcode byte to its enum variant, `none` when the
byte has no declared discriminant. -/
def from_u8 (data : Nat) : Option Instruction :=
  match data with
  | 0x00 => some .NOP
  | 0x01 => some .LoadBcTwoByteImmediate
  | 0x11 => some .LoadDeTwoByteImmediate
  | 0x21 => some .LoadHlTwoByteImmediate
  | 0x31 => some .LoadSpTwoByteImmediate
  | 0x02 => some .StoreBcA
  | 0x12 => some .StoreDeA
  | 0x22 => some .StoreHlPlusA
  | 0x32 => some .StoreHlMinusA
  | 0x03 => some .IncBc
  | 0x13 => some .IncDe
  | 0x23 => some .IncHl
  | 0x33 => some .IncSp
  | 0x3C => some .IncA
  | 0x04 => some .IncB
  | 0x0C => some .IncC
  | 0x14 => some .IncD
  | 0x1C => some .IncE
  | 0x24 => some .IncH
  | 0x2C => some .IncL
  | 0x40 => some .LoadBB
  | 0x41 => some .LoadBC
  | 0x42 => some .LoadBD
  | 0x43 => some .LoadBE
  | 0x44 => some .LoadBH
  | 0x45 => some .LoadBL
  | 0x47 => some .LoadBA
  | 0x48 => some .LoadCB
  | 0x49 => some .LoadCC
  | 0x4A => some .LoadCD
  | 0x4B => some .LoadCE
  | 0x4C => some .LoadCH
  | 0x4D => some .LoadCL
  | 0x4F => some .LoadCA
  | 0x50 => some .LoadDB
  | 0x51 => some .LoadDC
  | 0x52 => some .LoadDD
  | 0x53 => some .LoadDE
  | 0x54 => some .LoadDH
  | 0x55 => some .LoadDL
  | 0x57 => some .LoadDA
  | 0x58 => some .LoadEB
  | 0x59 => some .LoadEC
  | 0x5A => some .LoadED
  | 0x5B => some .LoadEE
  | 0x5C => some .LoadEH
  | 0x5D => some .LoadEL
  | 0x5F => some .LoadEA
  | 0x60 => some .LoadHB
  | 0x61 => some .LoadHC
  | 0x62 => some .LoadHD
  | 0x63 => some .LoadHE
  | 0x64 => some .LoadHH
  | 0x65 => some .LoadHL
  | 0x67 => some .LoadHA
  | 0x68 => some .LoadLB
  | 0x69 => some .LoadLC
  | 0x6A => some .LoadLD
  | 0x6B => some .LoadLE
  | 0x6C => some .LoadLH
  | 0x6D => some .LoadLL
  | 0x6F => some .LoadLA
  | 0x80 => some .AddAB
  | 0x81 => some .AddAC
  | 0x82 => some .AddAD
  | 0x83 => some .AddAE
  | 0x84 => some .AddAH
  | 0x85 => some .AddAL
  | 0x87 => some .AddAA
  | 0x88 => some .AdcAB
  | 0x89 => some .AdcAC
  | 0x8A => some .AdcAD
  | 0x8B => some .AdcAE
  | 0x8C => some .AdcAH
  | 0x8D => some .AdcAL
  | 0x8F => some .AdcAA
  | 0x90 => some .SubAB
  | 0x91 => some .SubAC
  | 0x92 => some .SubAD
  | 0x93 => some .SubAE
  | 0x94 => some .SubAH
  | 0x95 => some .SubAL
  | 0x97 => some .SubAA
  | 0x98 => some .SbcAB
  | 0x99 => some .SbcAC
  | 0x9A => some .SbcAD
  | 0x9B => some .SbcAE
  | 0x9C => some .SbcAH
  | 0x9D => some .SbcAL
  | 0x9F => some .SbcAA
  | 0xA0 => some .AndAB
  | 0xA1 => some .AndAC
  | 0xA2 => some .AndAD
  | 0xA3 => some .AndAE
  | 0xA4 => some .AndAH
  | 0xA5 => some .AndAL
  | 0xA7 => some .AndAA
  | 0xA8 => some .XorAB
  | 0xA9 => some .XorAC
  | 0xAA => some .XorAD
  | 0xAB => some .XorAE
  | 0xAC => some .XorAH
  | 0xAD => some .XorAL
  | 0xAF => some .XorAA
  | 0xB0 => some .OrAB
  | 0xB1 => some .OrAC
  | 0xB2 => some .OrAD
  | 0xB3 => some .OrAE
  | 0xB4 => some .OrAH
  | 0xB5 => some .OrAL
  | 0xB7 => some .OrAA
  | 0xB8 => some .CpAB
  | 0xB9 => some .CpAC
  | 0xBA => some .CpAD
  | 0xBB => some .CpAE
  | 0xBC => some .CpAH
  | 0xBD => some .CpAL
  | 0xBF => some .CpAA
  | _ => none

/-- Outcome of one CPU step: a normal return with the mutated state, or a
Rust panic (`unwrap` on a missing opcode, or an out-of-range memory
access), which aborts the process instead of returning. -/
inductive StepResult
  | ok (cpu : Cpu)
  | panicked

/-- Embedding of `Cpu::load_eight_bit_register_with_immediate`: push one
`LoadImmediate` micro-op onto the back of the queue. -/
def load_eight_bit_register_with_immediate (cpu : Cpu) (register : EightBitRegister) : Cpu :=
  { cpu with micro_op_queue := cpu.micro_op_queue ++ [MicroOp.LoadImmediate register] }

/-- Embedding of `Cpu::execute_micro_op` on the popped front entry
`micro_op` and remaining queue `rest`; every branch ends with `pc += 1`
(wrapping as `u16`). -/
def execute_micro_op (cpu : Cpu) (micro_op : MicroOp) (rest : List MicroOp) : StepResult :=
  match micro_op with
  | MicroOp.LoadImmediate destination =>
    match cpu.memory.get_data cpu.pc with
    | none => StepResult.panicked
    | some value =>
      let cpu :=
        match destination with
        | EightBitRegister.A => { cpu with a := value }
        | EightBitRegister.B => { cpu with b := value }
        | EightBitRegister.D => { cpu with d := value }
        | EightBitRegister.H => { cpu with h := value }
        | EightBitRegister.F => { cpu with f := value }
        | EightBitRegister.C => { cpu with c := value }
        | EightBitRegister.E => { cpu with e := value }
        | EightBitRegister.L => { cpu with l := value }
        | EightBitRegister.S => { cpu with sp := (value <<< 8) + (cpu.sp &&& 0x00FF) }
        | EightBitRegister.P => { cpu with sp := (cpu.sp &&& 0xFF00) + value }
      StepResult.ok { cpu with micro_op_queue := rest, pc := (cpu.pc + 1) % 65536 }
  | MicroOp.StoreToMemory value address =>
    match cpu.memory.set_byte address value with
    | none => StepResult.panicked
    | some memory =>
      StepResult.ok
        { cpu with memory := memory, micro_op_queue := rest, pc := (cpu.pc + 1) % 65536 }
  | MicroOp.StoreToSixteenBitRegister register value =>
    let cpu :=
      match register with
      | SixteenBitRegister.Bc => cpu.set_bc value
      | SixteenBitRegister.Hl => cpu.set_hl value
      | SixteenBitRegister.De => cpu.set_de value
      | SixteenBitRegister.Sp => cpu.set_sp value
    StepResult.ok { cpu with micro_op_queue := rest, pc := (cpu.pc + 1) % 65536 }

/-- Embedding of `Cpu::fetch_and_execute_instruction`: read the opcode byte
at PC (`get_instruction`, panicking on a failed read or on an unmapped
opcode through `unwrap`), advance PC by one, then dispatch on the decoded
instruction exactly as the Rust `match` does. -/
def fetch_and_execute_instruction (cpu : Cpu) : StepResult :=
  match cpu.memory.get_data cpu.pc with
  | none => StepResult.panicked
  | some data =>
    match from_u8 data with
    | none => StepResult.panicked
    | some instruction =>
      let cpu := { cpu with pc := (cpu.pc + 1) % 65536 }
      match instruction with
      | Instruction.NOP => StepResult.ok cpu
      | Instruction.LoadBcTwoByteImmediate =>
        StepResult.ok (load_eight_bit_register_with_immediate
          (load_eight_bit_register_with_immediate cpu EightBitRegister.C) EightBitRegister.B)
      | Instruction.LoadDeTwoByteImmediate =>
        StepResult.ok (load_eight_bit_register_with_immediate
          (load_eight_bit_register_with_immediate cpu EightBitRegister.E) EightBitRegister.D)
      | Instruction.LoadHlTwoByteImmediate =>
        StepResult.ok (load_eight_bit_register_with_immediate
          (load_eight_bit_register_with_immediate cpu EightBitRegister.L) EightBitRegister.H)
      | Instruction.LoadSpTwoByteImmediate =>
        StepResult.ok (load_eight_bit_register_with_immediate
          (load_eight_bit_register_with_immediate cpu EightBitRegister.P) EightBitRegister.S)
      | Instruction.StoreBcA =>
        StepResult.ok { cpu with micro_op_queue :=
          cpu.micro_op_queue ++ [MicroOp.StoreToMemory cpu.a cpu.get_bc] }
      | Instruction.StoreDeA =>
        StepResult.ok { cpu with micro_op_queue :=
          cpu.micro_op_queue ++ [MicroOp.StoreToMemory cpu.a cpu.get_de] }
      | Instruction.StoreHlPlusA =>
        let cpu := { cpu with micro_op_queue :=
          cpu.micro_op_queue ++ [MicroOp.StoreToMemory cpu.a cpu.get_hl] }
        StepResult.ok (cpu.set_hl ((cpu.get_hl + 1) % 65536))
      | Instruction.StoreHlMinusA =>
        let cpu := { cpu with micro_op_queue :=
          cpu.micro_op_queue ++ [MicroOp.StoreToMemory cpu.a cpu.get_hl] }
        StepResult.ok (cpu.set_hl ((cpu.get_hl + 65536 - 1) % 65536))
      | Instruction.IncBc =>
        StepResult.ok { cpu with micro_op_queue := cpu.micro_op_queue ++
          [MicroOp.StoreToSixteenBitRegister SixteenBitRegister.Bc ((cpu.get_bc + 1) % 65536)] }
      | Instruction.IncDe =>
        StepResult.ok { cpu with micro_op_queue := cpu.micro_op_queue ++
          [MicroOp.StoreToSixteenBitRegister SixteenBitRegister.De ((cpu.get_de + 1) % 65536)] }
      | Instruction.IncHl =>
        StepResult.ok { cpu with micro_op_queue := cpu.micro_op_queue ++
          [MicroOp.StoreToSixteenBitRegister SixteenBitRegister.Hl ((cpu.get_hl + 1) % 65536)] }
      | Instruction.IncSp =>
        StepResult.ok { cpu with micro_op_queue := cpu.micro_op_queue ++
          [MicroOp.StoreToSixteenBitRegister SixteenBitRegister.Sp ((cpu.get_sp + 1) % 65536)] }
      | Instruction.IncA => StepResult.ok { cpu with a := (cpu.a + 1) % 256 }
      | Instruction.IncB => StepResult.ok { cpu with b := (cpu.b + 1) % 256 }
      | Instruction.IncC => StepResult.ok { cpu with c := (cpu.c + 1) % 256 }
      | Instruction.IncD => StepResult.ok { cpu with d := (cpu.d + 1) % 256 }
      | Instruction.IncE => StepResult.ok { cpu with e := (cpu.e + 1) % 256 }
      | Instruction.IncH => StepResult.ok { cpu with h := (cpu.h + 1) % 256 }
      | Instruction.IncL => StepResult.ok { cpu with l := (cpu.l + 1) % 256 }
      | Instruction.LoadBB => StepResult.ok { cpu with b := cpu.b }
      | Instruction.LoadBC => StepResult.ok { cpu with b := cpu.c }
      | Instruction.LoadBD => StepResult.ok { cpu with b := cpu.d }
      | Instruction.LoadBE => StepResult.ok { cpu with b := cpu.e }
      | Instruction.LoadBH => StepResult.ok { cpu with b := cpu.h }
      | Instruction.LoadBL => StepResult.ok { cpu with b := cpu.l }
      | Instruction.LoadBA => StepResult.ok { cpu with b := cpu.a }
      | Instruction.LoadCB => StepResult.ok { cpu with c := cpu.b }
      | Instruction.LoadCC => StepResult.ok { cpu with c := cpu.c }
      | Instruction.LoadCD => StepResult.ok { cpu with c := cpu.d }
      | Instruction.LoadCE => StepResult.ok { cpu with c := cpu.e }
      | Instruction.LoadCH => StepResult.ok { cpu with c := cpu.h }
      | Instruction.LoadCL => StepResult.ok { cpu with c := cpu.l }
      | Instruction.LoadCA => StepResult.ok { cpu with c := cpu.a }
      | Instruction.LoadDB => StepResult.ok { cpu with d := cpu.b }
      | Instruction.LoadDC => StepResult.ok { cpu with d := cpu.c }
      | Instruction.LoadDD => StepResult.ok { cpu with d := cpu.d }
      | Instruction.LoadDE => StepResult.ok { cpu with d := cpu.e }
      | Instruction.LoadDH => StepResult.ok { cpu with d := cpu.h }
      | Instruction.LoadDL => StepResult.ok { cpu with d := cpu.l }
      | Instruction.LoadDA => StepResult.ok { cpu with d := cpu.a }
      | Instruction.LoadEB => StepResult.ok { cpu with e := cpu.b }
      | Instruction.LoadEC => StepResult.ok { cpu with e := cpu.c }
      | Instruction.LoadED => StepResult.ok { cpu with e := cpu.d }
      | Instruction.LoadEE => StepResult.ok { cpu with e := cpu.e }
      | Instruction.LoadEH => StepResult.ok { cpu with e := cpu.h }
      | Instruction.LoadEL => StepResult.ok { cpu with e := cpu.l }
      | Instruction.LoadEA => StepResult.ok { cpu with e := cpu.a }
      | Instruction.LoadHB => StepResult.ok { cpu with h := cpu.b }
      | Instruction.LoadHC => StepResult.ok { cpu with h := cpu.c }
      | Instruction.LoadHD => StepResult.ok { cpu with h := cpu.d }
      | Instruction.LoadHE => StepResult.ok { cpu with h := cpu.e }
      | Instruction.LoadHH => StepResult.ok { cpu with h := cpu.h }
      | Instruction.LoadHL => StepResult.ok { cpu with h := cpu.l }
      | Instruction.LoadHA => StepResult.ok { cpu with h := cpu.a }
      | Instruction.LoadLB => StepResult.ok { cpu with l := cpu.b }
      | Instruction.LoadLC => StepResult.ok { cpu with l := cpu.c }
      | Instruction.LoadLD => StepResult.ok { cpu with l := cpu.d }
      | Instruction.LoadLE => StepResult.ok { cpu with l := cpu.e }
      | Instruction.LoadLH => StepResult.ok { cpu with l := cpu.h }
      | Instruction.LoadLL => StepResult.ok { cpu with l := cpu.l }
      | Instruction.LoadLA => StepResult.ok { cpu with l := cpu.a }
      | Instruction.AddAB =>
        let r := add cpu.a cpu.b; StepResult.ok { cpu with a := r.1, flags := r.2 }
      | Instruction.AddAC =>
        let r := add cpu.a cpu.c; StepResult.ok { cpu with a := r.1, flags := r.2 }
      | Instruction.AddAD =>
        let r := add cpu.a cpu.d; StepResult.ok { cpu with a := r.1, flags := r.2 }
      | Instruction.AddAE =>
        let r := add cpu.a cpu.e; StepResult.ok { cpu with a := r.1, flags := r.2 }
      | Instruction.AddAH =>
        let r := add cpu.a cpu.h; StepResult.ok { cpu with a := r.1, flags := r.2 }
      | Instruction.AddAL =>
        let r := add cpu.a cpu.l; StepResult.ok { cpu with a := r.1, flags := r.2 }
      | Instruction.AddAA =>
        let r := add cpu.a cpu.a; StepResult.ok { cpu with a := r.1, flags := r.2 }
      | Instruction.AdcAB =>
        let r := adc cpu.flags.carry cpu.a cpu.b
        StepResult.ok { cpu with a := r.1, flags := r.2 }
      | Instruction.AdcAC =>
        let r := adc cpu.flags.carry cpu.a cpu.c
        StepResult.ok { cpu with a := r.1, flags := r.2 }
      | Instruction.AdcAD =>
        let r := adc cpu.flags.carry cpu.a cpu.d
        StepResult.ok { cpu with a := r.1, flags := r.2 }
      | Instruction.AdcAE =>
        let r := adc cpu.flags.carry cpu.a cpu.e
        StepResult.ok { cpu with a := r.1, flags := r.2 }
      | Instruction.AdcAH =>
        let r := adc cpu.flags.carry cpu.a cpu.h
        StepResult.ok { cpu with a := r.1, flags := r.2 }
      | Instruction.AdcAL =>
        let r := adc cpu.flags.carry cpu.a cpu.l
        StepResult.ok { cpu with a := r.1, flags := r.2 }
      | Instruction.AdcAA =>
        let r := adc cpu.flags.carry cpu.a cpu.a
        StepResult.ok { cpu with a := r.1, flags := r.2 }
      | Instruction.SubAB =>
        let r := sub cpu.a cpu.b; StepResult.ok { cpu with a := r.1, flags := r.2 }
      | Instruction.SubAC =>
        let r := sub cpu.a cpu.c; StepResult.ok { cpu with a := r.1, flags := r.2 }
      | Instruction.SubAD =>
        let r := sub cpu.a cpu.d; StepResult.ok { cpu with a := r.1, flags := r.2 }
      | Instruction.SubAE =>
        let r := sub cpu.a cpu.e; StepResult.ok { cpu with a := r.1, flags := r.2 }
      | Instruction.SubAH =>
        let r := sub cpu.a cpu.h; StepResult.ok { cpu with a := r.1, flags := r.2 }
      | Instruction.SubAL =>
        let r := sub cpu.a cpu.l; StepResult.ok { cpu with a := r.1, flags := r.2 }
      | Instruction.SubAA =>
        let r := sub cpu.a cpu.a; StepResult.ok { cpu with a := r.1, flags := r.2 }
      | Instruction.SbcAB =>
        let r := sbc cpu.flags.carry cpu.a cpu.b
        StepResult.ok { cpu with a := r.1, flags := r.2 }
      | Instruction.SbcAC =>
        let r := sbc cpu.flags.carry cpu.a cpu.c
        StepResult.ok { cpu with a := r.1, flags := r.2 }
      | Instruction.SbcAD =>
        let r := sbc cpu.flags.carry cpu.a cpu.d
        StepResult.ok { cpu with a := r.1, flags := r.2 }
      | Instruction.SbcAE =>
        let r := sbc cpu.flags.carry cpu.a cpu.e
        StepResult.ok { cpu with a := r.1, flags := r.2 }
      | Instruction.SbcAH =>
        let r := sbc cpu.flags.carry cpu.a cpu.h
        StepResult.ok { cpu with a := r.1, flags := r.2 }
      | Instruction.SbcAL =>
        let r := sbc cpu.flags.carry cpu.a cpu.l
        StepResult.ok { cpu with a := r.1, flags := r.2 }
      | Instruction.SbcAA =>
        let r := sbc cpu.flags.carry cpu.a cpu.a
        StepResult.ok { cpu with a := r.1, flags := r.2 }
      | Instruction.AndAB =>
        let r := and cpu.a cpu.b; StepResult.ok { cpu with a := r.1, flags := r.2 }
      | Instruction.AndAC =>
        let r := and cpu.a cpu.c; StepResult.ok { cpu with a := r.1, flags := r.2 }
      | Instruction.AndAD =>
        let r := and cpu.a cpu.d; StepResult.ok { cpu with a := r.1, flags := r.2 }
      | Instruction.AndAE =>
        let r := and cpu.a cpu.e; StepResult.ok { cpu with a := r.1, flags := r.2 }
      | Instruction.AndAH =>
        let r := and cpu.a cpu.h; StepResult.ok { cpu with a := r.1, flags := r.2 }
      | Instruction.AndAL =>
        let r := and cpu.a cpu.l; StepResult.ok { cpu with a := r.1, flags := r.2 }
      | Instruction.AndAA =>
        let r := and cpu.a cpu.a; StepResult.ok { cpu with a := r.1, flags := r.2 }
      | Instruction.XorAB =>
        let r := xor cpu.a cpu.b; StepResult.ok { cpu with a := r.1, flags := r.2 }
      | Instruction.XorAC =>
        let r := xor cpu.a cpu.c; StepResult.ok { cpu with a := r.1, flags := r.2 }
      | Instruction.XorAD =>
        let r := xor cpu.a cpu.d; StepResult.ok { cpu with a := r.1, flags := r.2 }
      | Instruction.XorAE =>
        let r := xor cpu.a cpu.e; StepResult.ok { cpu with a := r.1, flags := r.2 }
      | Instruction.XorAH =>
        let r := xor cpu.a cpu.h; StepResult.ok { cpu with a := r.1, flags := r.2 }
      | Instruction.XorAL =>
        let r := xor cpu.a cpu.l; StepResult.ok { cpu with a := r.1, flags := r.2 }
      | Instruction.XorAA =>
        let r := xor cpu.a cpu.a; StepResult.ok { cpu with a := r.1, flags := r.2 }
      | Instruction.OrAB =>
        let r := or cpu.a cpu.b; StepResult.ok { cpu with a := r.1, flags := r.2 }
      | Instruction.OrAC =>
        let r := or cpu.a cpu.c; StepResult.ok { cpu with a := r.1, flags := r.2 }
      | Instruction.OrAD =>
        let r := or cpu.a cpu.d; StepResult.ok { cpu with a := r.1, flags := r.2 }
      | Instruction.OrAE =>
        let r := or cpu.a cpu.e; StepResult.ok { cpu with a := r.1, flags := r.2 }
      | Instruction.OrAH =>
        let r := or cpu.a cpu.h; StepResult.ok { cpu with a := r.1, flags := r.2 }
      | Instruction.OrAL =>
        let r := or cpu.a cpu.l; StepResult.ok { cpu with a := r.1, flags := r.2 }
      | Instruction.OrAA =>
        let r := or cpu.a cpu.a; StepResult.ok { cpu with a := r.1, flags := r.2 }
      | Instruction.CpAB => StepResult.ok { cpu with flags := cp cpu.a cpu.b }
      | Instruction.CpAC => StepResult.ok { cpu with flags := cp cpu.a cpu.c }
      | Instruction.CpAD => StepResult.ok { cpu with flags := cp cpu.a cpu.d }
      | Instruction.CpAE => StepResult.ok { cpu with flags := cp cpu.a cpu.e }
      | Instruction.CpAH => StepResult.ok { cpu with flags := cp cpu.a cpu.h }
      | Instruction.CpAL => StepResult.ok { cpu with flags := cp cpu.a cpu.l }
      | Instruction.CpAA => StepResult.ok { cpu with flags := cp cpu.a cpu.a }

/-- Embedding of `Cpu::execute_instruction` (one external step): drain one
micro-op when the queue is non-empty, otherwise fetch and dispatch the
opcode at PC. -/
def execute_instruction (cpu : Cpu) : StepResult :=
  match cpu.micro_op_queue with
  | [] => fetch_and_execute_instruction cpu
  | micro_op :: rest => execute_micro_op cpu micro_op rest

/-- Iterated stepping: `run cpu n` performs `n` consecutive
`execute_instruction` calls, propagating a panic. -/
def run (cpu : Cpu) : Nat → StepResult
  | 0 => StepResult.ok cpu
  | n + 1 =>
    match execute_instruction cpu with
    | StepResult.ok cpu' => run cpu' n
    | StepResult.panicked => StepResult.panicked

/-- Concrete test state for the StoreHlPlusA scenario: reset CPU with
HL = 0x1234, A = 0x56 and opcode 0x22 at PC = 0x100. -/
def c3cpu : Cpu :=
  { Cpu.new { rom_bank_0 := fun a => if a = 0x100 then 0x22 else 0 } with
      h := 0x12, l := 0x34, a := 0x56 }

/-- Concrete test state for the StoreHlPlusA wrap case: reset CPU with
HL = 0xFFFF, A = 0x56 and opcode 0x22 at PC = 0x100. -/
def c3wrapcpu : Cpu :=
  { Cpu.new { rom_bank_0 := fun a => if a = 0x100 then 0x22 else 0 } with
      h := 0xFF, l := 0xFF, a := 0x56 }

/-- Concrete test state for the ALU frame scenario: reset CPU whose byte
store holds opcode 0x90 (SUB A,B) everywhere. -/
def c10cpu : Cpu := Cpu.new { rom_bank_0 := fun _ => 0x90 }

/-- Concrete test state for the LD BC,nn scenario: reset CPU whose byte
store holds 0x01, 0x0F, 0xF0 at 0x100, 0x101, 0x102. -/
def c9cpu : Cpu :=
  Cpu.new { rom_bank_0 := fun a =>
    if a = 0x100 then 0x01 else if a = 0x101 then 0x0F
    else if a = 0x102 then 0xF0 else 0 }

theorem land_fifteen (x : Nat) : x &&& 15 = x % 16 := by
  have h := Nat.and_pow_two_sub_one_eq_mod x 4
  norm_num at h
  exact h

theorem land_255 (x : Nat) : x &&& 255 = x % 256 := by
  have h := Nat.and_pow_two_sub_one_eq_mod x 8
  norm_num at h
  exact h

theorem hc_nibble :
    ∀ a < 16, ∀ b < 16, ((((a + 256 - b) % 256) &&& 16 = 16) ↔ a < b) := by decide

/-- Closed form of `Gb.sub`: the chain of conditional flag updates collapses
to one record. -/
theorem sub_eq (x y : Nat) :
    Gb.sub x y = ((x + 256 - y) % 256,
      { zero := decide ((x + 256 - y) % 256 = 0)
        subtraction := true
        half_carry := decide ((((x &&& 0xF) + 256 - (y &&& 0xF)) % 256) &&& 0x10 = 0x10)
        carry := decide (x < y) }) := by
  unfold Gb.sub
  by_cases h1 : (x + 256 - y) % 256 = 0 <;>
    by_cases h2 : (((x &&& 0xF) + 256 - (y &&& 0xF)) % 256) &&& 0x10 = 0x10 <;>
      by_cases h3 : x < y <;>
        simp [h1, h2, h3, CpuFlags.empty]

/-- Closed form of `Gb.sbc`. -/
theorem sbc_eq (cf : Bool) (x y : Nat) :
    Gb.sbc cf x y =
      (((x + 256 - y) % 256 + 256 - (if cf then 1 else 0)) % 256,
       { zero := decide (((x + 256 - y) % 256 + 256 - (if cf then 1 else 0)) % 256 = 0)
         subtraction := true
         half_carry :=
           decide ((x &&& 0xF) < ((y + 256 - (if cf then 1 else 0)) % 256) &&& 0xF)
         carry :=
           decide (((x + 256 - y) % 256 + 256 - (if cf then 1 else 0)) % 256 ≥ x) }) := by
  unfold Gb.sbc
  cases cf
  · by_cases h1 : (x + 256 - y) % 256 = 0 <;>
      by_cases h2 : x &&& 15 < y % 256 &&& 15 <;>
        by_cases h3 : x ≤ (x + 256 - y) % 256 <;>
          simp [h1, h2, h3, CpuFlags.empty] <;>
            split <;> simp_all
  · by_cases h1 : (x + 256 - y + 255) % 256 = 0 <;>
      by_cases h2 : x &&& 15 < (y + 255) % 256 &&& 15 <;>
        by_cases h3 : x ≤ (x + 256 - y + 255) % 256 <;>
          simp [h1, h2, h3, CpuFlags.empty] <;>
            split <;> simp_all

/-- C1: for all 8-bit operands `x` and `y`, `sub x y` returns
`(x - y) mod 256` and produces exactly these flags: Zero iff the result is
0, Subtraction always set, Half-Carry iff `x & 0xF < y & 0xF`, Carry iff
`x < y`; and `cp x y` produces exactly the same flag state as `sub x y`
while discarding the numeric result. -/
theorem sub_cp_flag_spec (x y : Nat) (hx : x < 256) (hy : y < 256) :
    ((Gb.sub x y).1 : Int) = ((x : Int) - (y : Int)) % 256 ∧
    ((Gb.sub x y).2.zero = true ↔ (Gb.sub x y).1 = 0) ∧
    (Gb.sub x y).2.subtraction = true ∧
    ((Gb.sub x y).2.half_carry = true ↔ (x &&& 0xF) < (y &&& 0xF)) ∧
    ((Gb.sub x y).2.carry = true ↔ x < y) ∧
    Gb.cp x y = (Gb.sub x y).2 := by
  refine ⟨?_, ?_, ?_, ?_, ?_, ?_⟩
  · simp only [sub_eq]
    omega
  · simp [sub_eq]
  · simp [sub_eq]
  · have ha : x &&& 15 < 16 := by rw [land_fifteen]; omega
    have hb : y &&& 15 < 16 := by rw [land_fifteen]; omega
    have h := hc_nibble (x &&& 15) ha (y &&& 15) hb
    simp only [sub_eq]
    simpa using h
  · simp [sub_eq]
  · simp [Gb.cp]

/-- Witness for `sub_cp_flag_spec` at the concrete operands
x = 0x12, y = 0x34. -/
theorem sub_cp_flag_spec_witness :
    (0x12 : Nat) < 256 ∧ (0x34 : Nat) < 256 ∧
    (((Gb.sub 0x12 0x34).1 : Int) = ((0x12 : Int) - (0x34 : Int)) % 256 ∧
     ((Gb.sub 0x12 0x34).2.zero = true ↔ (Gb.sub 0x12 0x34).1 = 0) ∧
     (Gb.sub 0x12 0x34).2.subtraction = true ∧
     ((Gb.sub 0x12 0x34).2.half_carry = true ↔
       ((0x12 : Nat) &&& 0xF) < ((0x34 : Nat) &&& 0xF)) ∧
     ((Gb.sub 0x12 0x34).2.carry = true ↔ (0x12 : Nat) < 0x34) ∧
     Gb.cp 0x12 0x34 = (Gb.sub 0x12 0x34).2) :=
  ⟨by decide, by decide, sub_cp_flag_spec 0x12 0x34 (by decide) (by decide)⟩

/-- C2 (failure analysis): the half-carry subexpression of `sub`, which
subtracts the operands' low nibbles as unsigned 8-bit values, underflows —
and therefore panics in an overflow-checked (debug / `cargo test`) build —
exactly when `x & 0xF < y & 0xF`; in particular it faults at the concrete
input x = 0x00, y = 0x01, contradicting the spec's totality requirement. -/
theorem sub_half_carry_checked_spec :
    (∀ x y : Nat, Gb.sub_half_carry_checked x y = none ↔ (x &&& 0xF) < (y &&& 0xF)) ∧
    Gb.sub_half_carry_checked 0x00 0x01 = none := by
  constructor
  · intro x y
    unfold Gb.sub_half_carry_checked
    split_ifs with h <;> simp [h]
  · rfl

/-- C7: for all 8-bit operands and either incoming carry, `sbc cf x y`
returns `(x - y - cf) mod 256` with Zero iff the result is 0, Subtraction
always set, Half-Carry iff `x & 0xF < ((y - cf) & 0xF)` computed with
wrapping, Carry iff the result is >= x (wrap occurred); and concretely
`sbc(0xFF, 0xF0)` with incoming Carry = 1 yields 0x0E with Subtraction as
the only flag set. -/
theorem sbc_spec (cf : Bool) (x y : Nat) (hx : x < 256) (hy : y < 256) :
    ((Gb.sbc cf x y).1 : Int) =
      ((x : Int) - (y : Int) - (if cf then 1 else 0)) % 256 ∧
    ((Gb.sbc cf x y).2.zero = true ↔ (Gb.sbc cf x y).1 = 0) ∧
    (Gb.sbc cf x y).2.subtraction = true ∧
    ((Gb.sbc cf x y).2.half_carry = true ↔
      (x &&& 0xF) < ((y + 256 - (if cf then 1 else 0)) % 256) &&& 0xF) ∧
    ((Gb.sbc cf x y).2.carry = true ↔ (Gb.sbc cf x y).1 ≥ x) ∧
    Gb.sbc true 0xFF 0xF0 =
      (0x0E, { zero := false, subtraction := true, half_carry := false, carry := false }) := by
  refine ⟨?_, ?_, ?_, ?_, ?_, by decide⟩
  · simp only [sbc_eq]
    cases cf <;> simp <;> omega
  · simp [sbc_eq]
  · simp [sbc_eq]
  · simp [sbc_eq]
  · simp [sbc_eq]

/-- Witness for `sbc_spec` at incoming carry = true and the concrete
operands x = 0x3A, y = 0x0B. -/
theorem sbc_spec_witness :
    (0x3A : Nat) < 256 ∧ (0x0B : Nat) < 256 ∧
    (((Gb.sbc true 0x3A 0x0B).1 : Int) =
       ((0x3A : Int) - (0x0B : Int) - (if true then 1 else 0)) % 256 ∧
     ((Gb.sbc true 0x3A 0x0B).2.zero = true ↔ (Gb.sbc true 0x3A 0x0B).1 = 0) ∧
     (Gb.sbc true 0x3A 0x0B).2.subtraction = true ∧
     ((Gb.sbc true 0x3A 0x0B).2.half_carry = true ↔
       ((0x3A : Nat) &&& 0xF) <
         (((0x0B : Nat) + 256 - (if true then 1 else 0)) % 256) &&& 0xF) ∧
     ((Gb.sbc true 0x3A 0x0B).2.carry = true ↔ (Gb.sbc true 0x3A 0x0B).1 ≥ 0x3A) ∧
     Gb.sbc true 0xFF 0xF0 =
       (0x0E, { zero := false, subtraction := true, half_carry := false, carry := false })) :=
  ⟨by decide, by decide, sbc_spec true 0x3A 0x0B (by decide) (by decide)⟩

/-- C8: for all operands, `and` returns `x & y` and unconditionally sets
Half-Carry while clearing Subtraction and Carry; `or` returns `x | y` and
`xor` returns `x ^ y`, and neither ever sets Subtraction, Half-Carry, or
Carry; all three set Zero iff their result is 0. -/
theorem and_or_xor_spec (x y : Nat) :
    (Gb.and x y).1 = x &&& y ∧
    ((Gb.and x y).2.zero = true ↔ x &&& y = 0) ∧
    (Gb.and x y).2.subtraction = false ∧
    (Gb.and x y).2.half_carry = true ∧
    (Gb.and x y).2.carry = false ∧
    (Gb.or x y).1 = x ||| y ∧
    ((Gb.or x y).2.zero = true ↔ x ||| y = 0) ∧
    (Gb.or x y).2.subtraction = false ∧
    (Gb.or x y).2.half_carry = false ∧
    (Gb.or x y).2.carry = false ∧
    (Gb.xor x y).1 = x ^^^ y ∧
    ((Gb.xor x y).2.zero = true ↔ x ^^^ y = 0) ∧
    (Gb.xor x y).2.subtraction = false ∧
    (Gb.xor x y).2.half_carry = false ∧
    (Gb.xor x y).2.carry = false := by
  unfold Gb.and Gb.or Gb.xor
  by_cases h1 : x &&& y = 0 <;> by_cases h2 : x ||| y = 0 <;> by_cases h3 : x ^^^ y = 0 <;>
    simp [h1, h2, h3, CpuFlags.empty]

theorem get_hl_set_hl (cpu : Cpu) (v : Nat) (hv : v < 65536) :
    (Gb.Cpu.set_hl cpu v).get_hl = v := by
  simp [Gb.Cpu.set_hl, Gb.Cpu.get_hl, Nat.shiftLeft_eq, Nat.shiftRight_eq_div_pow, land_255]
  omega

/-- C4 counterexample: with an unmapped opcode byte (0xFF) at PC, the step
does not return a typed failure to the caller — it aborts: the `unwrap`
inside `get_instruction` panics, modelled as the `panicked` outcome. -/
theorem unmapped_opcode_aborts_cex :
    Gb.execute_instruction (Gb.Cpu.new { rom_bank_0 := fun _ => 0xFF }) =
      Gb.StepResult.panicked := rfl

/-- C4 (amended): when the opcode byte at PC has no entry in the dispatch
table (`from_u8` returns `none`), executing a step from the Idle state is a
process abort — the decode failure is detected (never a silent default) but
surfaced as a panic through `unwrap`, not as a typed error value returned
to the caller. -/
theorem unmapped_opcode_step_panics (cpu : Gb.Cpu)
    (hq : cpu.micro_op_queue = [])
    (hpc : cpu.pc < 0x4000)
    (hop : Gb.from_u8 (cpu.memory.rom_bank_0 cpu.pc) = none) :
    Gb.execute_instruction cpu = Gb.StepResult.panicked := by
  unfold Gb.execute_instruction
  rw [hq]
  unfold Gb.fetch_and_execute_instruction
  simp [Gb.Memory.get_data, hpc, hop]

/-- Witness for `unmapped_opcode_step_panics` at the concrete reset state
whose byte store holds 0xD3 (an undeclared opcode) everywhere. -/
theorem unmapped_opcode_step_panics_witness :
    (Gb.Cpu.new { rom_bank_0 := fun _ => 0xD3 }).micro_op_queue = [] ∧
    (Gb.Cpu.new { rom_bank_0 := fun _ => 0xD3 }).pc < 0x4000 ∧
    Gb.from_u8 ((Gb.Cpu.new { rom_bank_0 := fun _ => 0xD3 }).memory.rom_bank_0
      (Gb.Cpu.new { rom_bank_0 := fun _ => 0xD3 }).pc) = none ∧
    Gb.execute_instruction (Gb.Cpu.new { rom_bank_0 := fun _ => 0xD3 }) =
      Gb.StepResult.panicked :=
  ⟨rfl, by decide, rfl, unmapped_opcode_step_panics _ rfl (by decide) rfl⟩

/-- C5 (failing execution): from the reset state with the one-byte store
opcode 0x02 (StoreBcA) at PC = 0x100, the two steps of the instruction
leave PC at 0x102 — an advance of 2 for an instruction that consumes only
one instruction-stream byte, because `execute_micro_op` unconditionally
increments PC even for the store micro-op, which reads no byte. -/
theorem store_bc_pc_advance_bug :
    ∃ cpu2,
      Gb.run (Gb.Cpu.new { rom_bank_0 := fun a => if a = 0x100 then 0x02 else 0 }) 2 =
        Gb.StepResult.ok cpu2 ∧ cpu2.pc = 0x102 :=
  ⟨_, rfl, rfl⟩

/-- C6 counterexample: address 0x4000 lies in 0..65535 but the byte store
rejects it — both the read and the write panic (`none`) because only the
ROM bank 0 arm (`0x0000..0x4000`) of the address match is implemented. -/
theorem memory_rejects_0x4000 :
    Gb.Memory.get_data Gb.Memory.new 0x4000 = none ∧
    Gb.Memory.set_byte Gb.Memory.new 0x4000 0x12 = none :=
  ⟨rfl, rfl⟩

/-- C6 (amended): for every address below 0x4000 (ROM bank 0) the byte
store behaves as a flat addressable byte array — `get_data` returns a byte
and `set_byte` succeeds, with the written value read back; every address
from 0x4000 up panics. -/
theorem memory_bank0_total (m : Gb.Memory) (address value : Nat) (h : address < 0x4000) :
    (∃ b, Gb.Memory.get_data m address = some b) ∧
    (∃ m2, Gb.Memory.set_byte m address value = some m2 ∧
      Gb.Memory.get_data m2 address = some value) := by
  constructor
  · exact ⟨m.rom_bank_0 (address - 0), by simp [Gb.Memory.get_data, h]⟩
  · refine ⟨{ rom_bank_0 := fun i => if i = address - 0 then value else m.rom_bank_0 i },
      ?_, ?_⟩
    · simp [Gb.Memory.set_byte, h]
    · simp [Gb.Memory.get_data, h]

/-- Witness for `memory_bank0_total` at the concrete address 0x123 and
value 0x56 on the zeroed store. -/
theorem memory_bank0_total_witness :
    (0x123 : Nat) < 0x4000 ∧
    ((∃ b, Gb.Memory.get_data Gb.Memory.new 0x123 = some b) ∧
     (∃ m2, Gb.Memory.set_byte Gb.Memory.new 0x123 0x56 = some m2 ∧
       Gb.Memory.get_data m2 0x123 = some 0x56)) :=
  ⟨by decide, memory_bank0_total Gb.Memory.new 0x123 0x56 (by decide)⟩

/-- C3 counterexample: at the claim's own wrap case HL = 0xFFFF (with
opcode 0x22 at the reset PC), the micro-op enqueued at dispatch carries
the address 0xFFFF, which the byte store rejects — the second step panics
in `set_byte` instead of completing, so no post-state satisfies the
claimed store and wrap behaviour. -/
theorem store_hl_plus_wrap_panics :
    Gb.run Gb.c3wrapcpu 2 = Gb.StepResult.panicked := rfl

/-- C3 (amended): from the Idle state with opcode 0x22 (StoreHlPlusA) at
PC, provided the original HL lies in the implemented byte-store region
(below 0x4000), after exactly two steps the byte store at the original
(pre-instruction) HL address holds A's value and HL equals the original
HL plus 1 modulo 2^16; the store address held in the enqueued micro-op is
captured at dispatch time — after the first step the queue entry carries
the original HL while HL has already been incremented.  For HL at or
above 0x4000 — including the 0xFFFF wrap case — the deferred store panics
(see the counterexample above). -/
theorem store_hl_plus_two_steps (cpu : Gb.Cpu)
    (hq : cpu.micro_op_queue = [])
    (hpc : cpu.pc < 0x4000)
    (hhl : cpu.get_hl < 0x4000)
    (hop : cpu.memory.rom_bank_0 cpu.pc = 0x22) :
    ∃ cpu1 cpu2,
      Gb.execute_instruction cpu = Gb.StepResult.ok cpu1 ∧
      cpu1.micro_op_queue = [Gb.MicroOp.StoreToMemory cpu.a cpu.get_hl] ∧
      cpu1.get_hl = (cpu.get_hl + 1) % 65536 ∧
      Gb.execute_instruction cpu1 = Gb.StepResult.ok cpu2 ∧
      cpu2.memory.get_data cpu.get_hl = some cpu.a ∧
      cpu2.get_hl = (cpu.get_hl + 1) % 65536 := by
  have hv : (cpu.get_hl + 1) % 65536 < 65536 := Nat.mod_lt _ (by omega)
  refine ⟨Gb.Cpu.set_hl
      { cpu with pc := (cpu.pc + 1) % 65536,
                 micro_op_queue := [Gb.MicroOp.StoreToMemory cpu.a cpu.get_hl] }
      ((cpu.get_hl + 1) % 65536),
    { Gb.Cpu.set_hl
        { cpu with pc := (cpu.pc + 1) % 65536,
                   micro_op_queue := [Gb.MicroOp.StoreToMemory cpu.a cpu.get_hl] }
        ((cpu.get_hl + 1) % 65536) with
      memory := { rom_bank_0 := fun i =>
        if i = cpu.get_hl - 0 then cpu.a else cpu.memory.rom_bank_0 i },
      micro_op_queue := [],
      pc := ((cpu.pc + 1) % 65536 + 1) % 65536 },
    ?_, ?_, ?_, ?_, ?_, ?_⟩
  · have hfu : Gb.from_u8 0x22 = some Gb.Instruction.StoreHlPlusA := rfl
    simp only [Gb.execute_instruction, hq, Gb.fetch_and_execute_instruction]
    simp [Gb.Memory.get_data, hpc, hop, hfu, Gb.Cpu.set_hl, Gb.Cpu.get_hl]
  · rfl
  · exact get_hl_set_hl _ _ hv
  · simp only [Gb.execute_instruction, Gb.execute_micro_op, Gb.Cpu.set_hl]
    simp [Gb.Memory.set_byte, hhl]
  · simp [Gb.Cpu.set_hl, Gb.Memory.get_data, hhl]
  · simpa [Gb.Cpu.get_hl, Gb.Cpu.set_hl] using get_hl_set_hl
      { cpu with pc := (cpu.pc + 1) % 65536,
                 micro_op_queue := [Gb.MicroOp.StoreToMemory cpu.a cpu.get_hl] }
      ((cpu.get_hl + 1) % 65536) hv

/-- Witness for `store_hl_plus_two_steps` at the concrete state with
HL = 0x1234, A = 0x56 and opcode 0x22 at PC = 0x100. -/
theorem store_hl_plus_two_steps_witness :
    (Gb.c3cpu.micro_op_queue = []) ∧ Gb.c3cpu.pc < 0x4000 ∧ Gb.c3cpu.get_hl < 0x4000 ∧
    Gb.c3cpu.memory.rom_bank_0 Gb.c3cpu.pc = 0x22 ∧
    (∃ cpu1 cpu2,
      Gb.execute_instruction Gb.c3cpu = Gb.StepResult.ok cpu1 ∧
      cpu1.micro_op_queue = [Gb.MicroOp.StoreToMemory Gb.c3cpu.a Gb.c3cpu.get_hl] ∧
      cpu1.get_hl = (Gb.c3cpu.get_hl + 1) % 65536 ∧
      Gb.execute_instruction cpu1 = Gb.StepResult.ok cpu2 ∧
      cpu2.memory.get_data Gb.c3cpu.get_hl = some Gb.c3cpu.a ∧
      cpu2.get_hl = (Gb.c3cpu.get_hl + 1) % 65536) :=
  ⟨rfl, by decide, by decide, rfl,
    store_hl_plus_two_steps Gb.c3cpu rfl (by decide) (by decide) rfl⟩

/-- C9: from the Idle state with the 16-bit-immediate load opcode 0x01
(LD BC,nn) at PC, followed by low byte 0x0F and high byte 0xF0, three
consecutive steps load the low byte first (after two steps C holds 0x0F
while B is untouched), leave BC = 0xF00F, and advance PC by exactly 3. -/
theorem load_bc_immediate_three_steps (cpu : Gb.Cpu)
    (hq : cpu.micro_op_queue = [])
    (hpc : cpu.pc + 2 < 0x4000)
    (h0 : cpu.memory.rom_bank_0 cpu.pc = 0x01)
    (h1 : cpu.memory.rom_bank_0 (cpu.pc + 1) = 0x0F)
    (h2 : cpu.memory.rom_bank_0 (cpu.pc + 2) = 0xF0) :
    ∃ cpu2 cpu3,
      Gb.run cpu 2 = Gb.StepResult.ok cpu2 ∧
      cpu2.c = 0x0F ∧ cpu2.b = cpu.b ∧
      Gb.run cpu 3 = Gb.StepResult.ok cpu3 ∧
      cpu3.get_bc = 0xF00F ∧ cpu3.pc = cpu.pc + 3 := by
  have hpc0 : cpu.pc < 0x4000 := by omega
  have hpc1 : cpu.pc + 1 < 0x4000 := by omega
  have e1 : (cpu.pc + 1) % 65536 = cpu.pc + 1 := Nat.mod_eq_of_lt (by omega)
  have e2 : (cpu.pc + 1 + 1) % 65536 = cpu.pc + 2 := by omega
  have e3 : (cpu.pc + 2 + 1) % 65536 = cpu.pc + 3 := by omega
  have hs1 : Gb.execute_instruction cpu = Gb.StepResult.ok
      { cpu with pc := cpu.pc + 1,
                 micro_op_queue := [Gb.MicroOp.LoadImmediate Gb.EightBitRegister.C,
                                    Gb.MicroOp.LoadImmediate Gb.EightBitRegister.B] } := by
    have hfu : Gb.from_u8 0x01 = some Gb.Instruction.LoadBcTwoByteImmediate := rfl
    simp only [Gb.execute_instruction, hq, Gb.fetch_and_execute_instruction]
    simp [Gb.Memory.get_data, hpc0, h0, hfu,
      Gb.load_eight_bit_register_with_immediate, e1]
  have hs2 : Gb.execute_instruction
      { cpu with pc := cpu.pc + 1,
                 micro_op_queue := [Gb.MicroOp.LoadImmediate Gb.EightBitRegister.C,
                                    Gb.MicroOp.LoadImmediate Gb.EightBitRegister.B] } =
      Gb.StepResult.ok
      { cpu with c := 0x0F, pc := cpu.pc + 2,
                 micro_op_queue := [Gb.MicroOp.LoadImmediate Gb.EightBitRegister.B] } := by
    simp only [Gb.execute_instruction, Gb.execute_micro_op]
    simp [Gb.Memory.get_data, hpc1, h1, e2]
  have hs3 : Gb.execute_instruction
      { cpu with c := 0x0F, pc := cpu.pc + 2,
                 micro_op_queue := [Gb.MicroOp.LoadImmediate Gb.EightBitRegister.B] } =
      Gb.StepResult.ok
      { cpu with c := 0x0F, b := 0xF0, pc := cpu.pc + 3, micro_op_queue := [] } := by
    simp only [Gb.execute_instruction, Gb.execute_micro_op]
    simp [Gb.Memory.get_data, (by omega : cpu.pc + 2 < 0x4000), h2, e3]
  apply Exists.intro ({ cpu with c := 0x0F, pc := cpu.pc + 2, micro_op_queue := [Gb.MicroOp.LoadImmediate Gb.EightBitRegister.B] } : Gb.Cpu)
  apply Exists.intro ({ cpu with c := 0x0F, b := 0xF0, pc := cpu.pc + 3, micro_op_queue := [] } : Gb.Cpu)
  refine ⟨?_, rfl, rfl, ?_, ?_, rfl⟩
  · simp [Gb.run, hs1, hs2]
  · simp [Gb.run, hs1, hs2, hs3]
  · norm_num [Gb.Cpu.get_bc, Nat.shiftLeft_eq]

/-- Witness for `load_bc_immediate_three_steps` at the concrete reset state
whose byte store holds 0x01, 0x0F, 0xF0 at 0x100, 0x101, 0x102. -/
theorem load_bc_immediate_three_steps_witness :
    (Gb.c9cpu.micro_op_queue = []) ∧ Gb.c9cpu.pc + 2 < 0x4000 ∧
    Gb.c9cpu.memory.rom_bank_0 Gb.c9cpu.pc = 0x01 ∧
    Gb.c9cpu.memory.rom_bank_0 (Gb.c9cpu.pc + 1) = 0x0F ∧
    Gb.c9cpu.memory.rom_bank_0 (Gb.c9cpu.pc + 2) = 0xF0 ∧
    (∃ cpu2 cpu3,
      Gb.run Gb.c9cpu 2 = Gb.StepResult.ok cpu2 ∧
      cpu2.c = 0x0F ∧ cpu2.b = Gb.c9cpu.b ∧
      Gb.run Gb.c9cpu 3 = Gb.StepResult.ok cpu3 ∧
      cpu3.get_bc = 0xF00F ∧ cpu3.pc = Gb.c9cpu.pc + 3) :=
  ⟨rfl, by decide, rfl, rfl, rfl,
    load_bc_immediate_three_steps Gb.c9cpu rfl (by decide) rfl rfl rfl⟩

/-- C10: executing any declared arithmetic/logic opcode in 0x80-0xBF
(ADD/ADC/SUB/SBC/AND/XOR/OR/CP of a register into A) from the Idle state
completes in one step and modifies only the accumulator, the flag state
and PC (which advances by 1): registers B, C, D, E, H, L, SP, the raw F
byte, the byte store and the micro-op queue (which stays empty) are
unchanged, and for the CP opcodes 0xB8-0xBF the accumulator is also
unchanged. -/
theorem alu_opcode_frame (cpu : Gb.Cpu) (op : Nat)
    (hlo : 0x80 ≤ op) (hhi : op ≤ 0xBF)
    (hsome : (Gb.from_u8 op).isSome = true)
    (hq : cpu.micro_op_queue = [])
    (hpc : cpu.pc < 0x4000)
    (hmem : cpu.memory.rom_bank_0 cpu.pc = op) :
    ∃ cpu1,
      Gb.execute_instruction cpu = Gb.StepResult.ok cpu1 ∧
      cpu1.b = cpu.b ∧ cpu1.c = cpu.c ∧ cpu1.d = cpu.d ∧ cpu1.e = cpu.e ∧
      cpu1.h = cpu.h ∧ cpu1.l = cpu.l ∧ cpu1.sp = cpu.sp ∧ cpu1.f = cpu.f ∧
      cpu1.memory = cpu.memory ∧ cpu1.micro_op_queue = [] ∧
      cpu1.pc = cpu.pc + 1 ∧
      (0xB8 ≤ op → cpu1.a = cpu.a) := by
  have e1 : (cpu.pc + 1) % 65536 = cpu.pc + 1 := Nat.mod_eq_of_lt (by omega)
  have hgd : cpu.memory.get_data cpu.pc = some op := by
    simp [Gb.Memory.get_data, hpc, hmem]
  have hf80 : Gb.from_u8 0x80 = some Gb.Instruction.AddAB := rfl
  have hf81 : Gb.from_u8 0x81 = some Gb.Instruction.AddAC := rfl
  have hf82 : Gb.from_u8 0x82 = some Gb.Instruction.AddAD := rfl
  have hf83 : Gb.from_u8 0x83 = some Gb.Instruction.AddAE := rfl
  have hf84 : Gb.from_u8 0x84 = some Gb.Instruction.AddAH := rfl
  have hf85 : Gb.from_u8 0x85 = some Gb.Instruction.AddAL := rfl
  have hf87 : Gb.from_u8 0x87 = some Gb.Instruction.AddAA := rfl
  have hf88 : Gb.from_u8 0x88 = some Gb.Instruction.AdcAB := rfl
  have hf89 : Gb.from_u8 0x89 = some Gb.Instruction.AdcAC := rfl
  have hf8A : Gb.from_u8 0x8A = some Gb.Instruction.AdcAD := rfl
  have hf8B : Gb.from_u8 0x8B = some Gb.Instruction.AdcAE := rfl
  have hf8C : Gb.from_u8 0x8C = some Gb.Instruction.AdcAH := rfl
  have hf8D : Gb.from_u8 0x8D = some Gb.Instruction.AdcAL := rfl
  have hf8F : Gb.from_u8 0x8F = some Gb.Instruction.AdcAA := rfl
  have hf90 : Gb.from_u8 0x90 = some Gb.Instruction.SubAB := rfl
  have hf91 : Gb.from_u8 0x91 = some Gb.Instruction.SubAC := rfl
  have hf92 : Gb.from_u8 0x92 = some Gb.Instruction.SubAD := rfl
  have hf93 : Gb.from_u8 0x93 = some Gb.Instruction.SubAE := rfl
  have hf94 : Gb.from_u8 0x94 = some Gb.Instruction.SubAH := rfl
  have hf95 : Gb.from_u8 0x95 = some Gb.Instruction.SubAL := rfl
  have hf97 : Gb.from_u8 0x97 = some Gb.Instruction.SubAA := rfl
  have hf98 : Gb.from_u8 0x98 = some Gb.Instruction.SbcAB := rfl
  have hf99 : Gb.from_u8 0x99 = some Gb.Instruction.SbcAC := rfl
  have hf9A : Gb.from_u8 0x9A = some Gb.Instruction.SbcAD := rfl
  have hf9B : Gb.from_u8 0x9B = some Gb.Instruction.SbcAE := rfl
  have hf9C : Gb.from_u8 0x9C = some Gb.Instruction.SbcAH := rfl
  have hf9D : Gb.from_u8 0x9D = some Gb.Instruction.SbcAL := rfl
  have hf9F : Gb.from_u8 0x9F = some Gb.Instruction.SbcAA := rfl
  have hfA0 : Gb.from_u8 0xA0 = some Gb.Instruction.AndAB := rfl
  have hfA1 : Gb.from_u8 0xA1 = some Gb.Instruction.AndAC := rfl
  have hfA2 : Gb.from_u8 0xA2 = some Gb.Instruction.AndAD := rfl
  have hfA3 : Gb.from_u8 0xA3 = some Gb.Instruction.AndAE := rfl
  have hfA4 : Gb.from_u8 0xA4 = some Gb.Instruction.AndAH := rfl
  have hfA5 : Gb.from_u8 0xA5 = some Gb.Instruction.AndAL := rfl
  have hfA7 : Gb.from_u8 0xA7 = some Gb.Instruction.AndAA := rfl
  have hfA8 : Gb.from_u8 0xA8 = some Gb.Instruction.XorAB := rfl
  have hfA9 : Gb.from_u8 0xA9 = some Gb.Instruction.XorAC := rfl
  have hfAA : Gb.from_u8 0xAA = some Gb.Instruction.XorAD := rfl
  have hfAB : Gb.from_u8 0xAB = some Gb.Instruction.XorAE := rfl
  have hfAC : Gb.from_u8 0xAC = some Gb.Instruction.XorAH := rfl
  have hfAD : Gb.from_u8 0xAD = some Gb.Instruction.XorAL := rfl
  have hfAF : Gb.from_u8 0xAF = some Gb.Instruction.XorAA := rfl
  have hfB0 : Gb.from_u8 0xB0 = some Gb.Instruction.OrAB := rfl
  have hfB1 : Gb.from_u8 0xB1 = some Gb.Instruction.OrAC := rfl
  have hfB2 : Gb.from_u8 0xB2 = some Gb.Instruction.OrAD := rfl
  have hfB3 : Gb.from_u8 0xB3 = some Gb.Instruction.OrAE := rfl
  have hfB4 : Gb.from_u8 0xB4 = some Gb.Instruction.OrAH := rfl
  have hfB5 : Gb.from_u8 0xB5 = some Gb.Instruction.OrAL := rfl
  have hfB7 : Gb.from_u8 0xB7 = some Gb.Instruction.OrAA := rfl
  have hfB8 : Gb.from_u8 0xB8 = some Gb.Instruction.CpAB := rfl
  have hfB9 : Gb.from_u8 0xB9 = some Gb.Instruction.CpAC := rfl
  have hfBA : Gb.from_u8 0xBA = some Gb.Instruction.CpAD := rfl
  have hfBB : Gb.from_u8 0xBB = some Gb.Instruction.CpAE := rfl
  have hfBC : Gb.from_u8 0xBC = some Gb.Instruction.CpAH := rfl
  have hfBD : Gb.from_u8 0xBD = some Gb.Instruction.CpAL := rfl
  have hfBF : Gb.from_u8 0xBF = some Gb.Instruction.CpAA := rfl
  interval_cases op <;>
    first
      | exact absurd hsome (by decide)
      | (simp only [Gb.execute_instruction, hq, Gb.fetch_and_execute_instruction, hgd, e1,
           hf80, hf81, hf82, hf83, hf84, hf85, hf87, hf88, hf89, hf8A, hf8B, hf8C, hf8D, hf8F, hf90, hf91, hf92, hf93, hf94, hf95, hf97, hf98, hf99, hf9A, hf9B, hf9C, hf9D, hf9F, hfA0, hfA1, hfA2, hfA3, hfA4, hfA5, hfA7, hfA8, hfA9, hfAA, hfAB, hfAC, hfAD, hfAF, hfB0, hfB1, hfB2, hfB3, hfB4, hfB5, hfB7, hfB8, hfB9, hfBA, hfBB, hfBC, hfBD, hfBF]
         first
           | exact ⟨_, rfl, rfl, rfl, rfl, rfl, rfl, rfl, rfl, rfl, rfl, rfl, rfl,
               fun hle => absurd hle (by decide)⟩
           | exact ⟨_, rfl, rfl, rfl, rfl, rfl, rfl, rfl, rfl, rfl, rfl, rfl, rfl,
               fun hle => rfl⟩)

/-- Witness for `alu_opcode_frame` at opcode 0x90 (SUB A,B) on the reset
state whose byte store holds 0x90 everywhere. -/
theorem alu_opcode_frame_witness :
    (0x80 : Nat) ≤ 0x90 ∧ (0x90 : Nat) ≤ 0xBF ∧
    (Gb.from_u8 0x90).isSome = true ∧
    Gb.c10cpu.micro_op_queue = [] ∧ Gb.c10cpu.pc < 0x4000 ∧
    Gb.c10cpu.memory.rom_bank_0 Gb.c10cpu.pc = 0x90 ∧
    (∃ cpu1,
      Gb.execute_instruction Gb.c10cpu = Gb.StepResult.ok cpu1 ∧
      cpu1.b = Gb.c10cpu.b ∧ cpu1.c = Gb.c10cpu.c ∧ cpu1.d = Gb.c10cpu.d ∧
      cpu1.e = Gb.c10cpu.e ∧ cpu1.h = Gb.c10cpu.h ∧ cpu1.l = Gb.c10cpu.l ∧
      cpu1.sp = Gb.c10cpu.sp ∧ cpu1.f = Gb.c10cpu.f ∧
      cpu1.memory = Gb.c10cpu.memory ∧ cpu1.micro_op_queue = [] ∧
      cpu1.pc = Gb.c10cpu.pc + 1 ∧
      (0xB8 ≤ 0x90 → cpu1.a = Gb.c10cpu.a)) :=
  ⟨by decide, by decide, by decide, rfl, by decide, rfl,
    alu_opcode_frame Gb.c10cpu 0x90 (by decide) (by decide) (by decide) rfl
      (by decide) rfl⟩

end Gb
